import Mathlib

set_option maxRecDepth 10000

/-!
# Verification of the Kamui standalone VRF oracle server

Shallow embedding of `src/standalone-vrf-server.js`.  Byte buffers are
modelled as `List Nat` (each entry a byte value), timestamps as `Int`
(milliseconds, as returned by `Date.now()`), and the JavaScript `Map`
used for the idempotency ledger as an association list with
shadowing-free insert/delete.  External collaborators (the Mangekyou
CLI subprocess, the Solana RPC connection) are modelled by explicit
outcome parameters fed to the pure step functions, mirroring exactly
the control flow of the source.
-/

/-! ## Byte-buffer primitives (Node.js `Buffer` operations) -/

/-- `data.slice(start, start+len)` on a Node `Buffer`: clamping, never throws. -/
def sliceBytes (data : List Nat) (start len : Nat) : List Nat :=
  (data.drop start).take len

/-- `data.readUInt8(i)`; total model, callers guard the bound exactly where
the JavaScript code does (or where an out-of-range read would throw). -/
def readUInt8 (data : List Nat) (i : Nat) : Nat :=
  data.getD i 0

/-- `data.readUInt32LE(i)`; total model of the little-endian 32-bit read. -/
def readUInt32LE (data : List Nat) (i : Nat) : Nat :=
  data.getD i 0 + 256 * data.getD (i + 1) 0 + 65536 * data.getD (i + 2) 0
    + 16777216 * data.getD (i + 3) 0

/-- Little-endian byte encoding written by `buf.writeUInt32LE(n, off)`. -/
def u32le (n : Nat) : List Nat :=
  [n % 256, n / 256 % 256, n / 65536 % 256, n / 16777216 % 256]

/-- `src.copy(dest, off)` on Node buffers: copies
`min(src.length, dest.length - off)` bytes into `dest` starting at `off`. -/
def bufCopy (dest src : List Nat) (off : Nat) : List Nat :=
  dest.take off ++ src.take (dest.length - off) ++ dest.drop (off + src.length)

/-! ## Constants from the source -/

/-- The VRF request account discriminator `f4e7e4a0941c11b8` (line 415). -/
def pendingTag : List Nat := [0xf4, 0xe7, 0xe4, 0xa0, 0x94, 0x1c, 0x11, 0xb8]

/-- Discriminator for the `fulfill_randomness` instruction (line 756). -/
def fulfillDiscriminator : List Nat := [235, 105, 140, 46, 40, 88, 117, 2]

/-- The 10-minute re-check window `10 * 60 * 1000` ms (line 445). -/
def windowMs : Int := 10 * 60 * 1000

/-- `CONFIG.POLLING_INTERVAL` default (line 41). -/
def POLLING_INTERVAL : Nat := 3000

/-- The fixed `sleep(5000)` backoff taken after a cycle-level error (line 340). -/
def ERROR_BACKOFF : Nat := 5000

/-- `CONFIG.VRF_PROGRAM_ID` (line 28). -/
def VRF_PROGRAM_ID : String := "6k1Lmt37b5QQAhPz5YXbTPoHCSCDbSEeNAC96nWZn85a"

/-! ## The idempotency ledger (`this.processedRequests`, a JS `Map`) -/

/-- The value stored in `processedRequests` (lines 614-622). -/
structure ProcRecord where
  timestamp : Int
  proof : List Nat
  output : List Nat
  seed : List Nat
  requestId : List Nat
  poolId : Nat
  requestIndex : Nat
deriving DecidableEq, Repr

/-- The `processedRequests` map, keyed by the request account pubkey string. -/
abbrev IdempotencyMap := List (String × ProcRecord)

/-- `map.delete(k)` on a JS `Map`. -/
def mapErase (m : IdempotencyMap) (k : String) : IdempotencyMap :=
  m.filter (fun p => p.1 ≠ k)

/-- `map.set(k, v)` on a JS `Map` (at most one binding per key). -/
def mapSet (m : IdempotencyMap) (k : String) (v : ProcRecord) : IdempotencyMap :=
  (k, v) :: mapErase m k

/-- `map.get(k)` on a JS `Map`. -/
def mapGet? (m : IdempotencyMap) (k : String) : Option ProcRecord :=
  m.lookup k

/-- `map.has(k)` on a JS `Map`. -/
def mapHas (m : IdempotencyMap) (k : String) : Bool :=
  (mapGet? m k).isSome

/-! ## Eligibility check and pending-status parse (`isRequestPending`) -/

/-- The dedup / eligibility fragment of `isRequestPending` (lines 442-453):
returns `(false, m)` when a record exists and `now - timestamp < windowMs`;
otherwise `(true, ·)` after evicting a stale record as a side effect. -/
def isEligible (m : IdempotencyMap) (addr : String) (now : Int) :
    Bool × IdempotencyMap :=
  match mapGet? m addr with
  | some r =>
      if now - r.timestamp < windowMs then (false, m)
      else (true, mapErase m addr)
  | none => (true, m)

/-- The byte-layout fragment of `isRequestPending` (lines 455-506): tag check,
bounds-checked read of the callback-data length at offset `8+32+32+32`, then
the status byte after `4 + callbackDataLength + 8` more bytes.  Every read
happens only after the source's own explicit bound check, so the total reads
are exact.  A parse error in the source is caught and turned into `false`
(lines 502-505), so this fragment is total and Boolean-valued. -/
def isRequestPendingParse (data : List Nat) : Bool :=
  if sliceBytes data 0 8 ≠ pendingTag then false
  else
    -- offset = 8 (tag) + 32 (subscription) + 32 (seed) + 32 (requester)
    if data.length ≤ 104 + 4 then false
    else
      let callbackDataLength := readUInt32LE data 104
      -- offset += 4 + callbackDataLength; offset += 8 (request_slot)
      let statusOffset := 104 + 4 + callbackDataLength + 8
      if data.length ≤ statusOffset then false
      else readUInt8 data statusOffset == 0

/-- `isRequestPending` (lines 438-506): eligibility check against the
idempotency map, then the byte-layout parse.  Returns the Boolean result
together with the (possibly evicted-from) map. -/
def isRequestPending (m : IdempotencyMap) (addr : String) (now : Int)
    (data : List Nat) : Bool × IdempotencyMap :=
  let e := isEligible m addr now
  if e.1 then (isRequestPendingParse data, e.2) else (false, e.2)

/-! ## Request-account field extraction (`processRequestAccount`, lines 545-591) -/

/-- The fields that `processRequestAccount` extracts from the raw account
bytes. -/
structure ParsedRequest where
  subscription : List Nat
  seed : List Nat
  requester : List Nat
  poolId : Nat
  requestIndex : Nat
  requestId : List Nat
deriving DecidableEq, Repr

/-- The field extraction of `processRequestAccount` (lines 545-591).  The
source performs no bound checks here; an out-of-range `readUInt32LE` or
`readUInt8` throws a `RangeError`, modelled as `none` at exactly the
offsets where Node would throw.  `slice` never throws. -/
def parseRequestData (data : List Nat) : Option ParsedRequest :=
  -- readUInt32LE(104) throws unless 104 + 4 ≤ data.length
  if data.length < 108 then none
  else
    let callbackDataLength := readUInt32LE data 104
    -- offsets past callback data: request_slot 8, status 1, num_words 4,
    -- callback_gas_limit 8; poolId is read at 108 + len + 8 + 1 + 4 + 8
    let poolIdOffset := 104 + 4 + callbackDataLength + 8 + 1 + 4 + 8
    -- readUInt8(poolIdOffset) throws unless poolIdOffset < data.length
    if data.length < poolIdOffset + 1 then none
    -- readUInt32LE(poolIdOffset + 1) throws unless poolIdOffset + 5 ≤ length
    else if data.length < poolIdOffset + 5 then none
    else some
      { subscription := sliceBytes data 8 32
        seed := sliceBytes data 40 32
        requester := sliceBytes data 72 32
        poolId := readUInt8 data poolIdOffset
        requestIndex := readUInt32LE data (poolIdOffset + 1)
        requestId := sliceBytes data (poolIdOffset + 5) 32 }

/-! ## The fulfillment pipeline (`processRequestAccount`, lines 515-653) -/

/-- The server's counters (lines 256-261; `startTime` omitted). -/
structure Stats where
  requestsProcessed : Nat
  requestsFulfilled : Nat
  errors : Nat
deriving DecidableEq, Repr

/-- Outcome of the external `cli.generateProof` call: either a proof and
output, or a thrown error. -/
inductive GenOutcome where
  | ok (proof output : List Nat)
  | fail
deriving DecidableEq, Repr

/-- Outcome of `submitFulfillment` (lines 655-709).  That method catches all
its own errors and returns `{success, ...}`; `sentFail` covers a transaction
that was sent but not confirmed successfully, `notSentFail` an error thrown
before `sendRawTransaction` was reached. -/
inductive SubmitOutcome where
  | success
  | sentFail
  | notSentFail
deriving DecidableEq, Repr

/-- How one `processRequestAccount` call ends: `return false`, `return true`,
or a thrown error (re-thrown by its own catch block, lines 649-652). -/
inductive ProcessResult where
  | returnedFalse
  | returnedTrue
  | threw
deriving DecidableEq, Repr

/-- The full effect of one `processRequestAccount` call: its result, the
updated idempotency map and stats, and the number of fulfillment
transactions actually sent. -/
structure ProcessOut where
  result : ProcessResult
  map : IdempotencyMap
  stats : Stats
  submissions : Nat
deriving DecidableEq, Repr

/-- The post-parse tail of `processRequestAccount` (lines 594-647): proof
generation (a thrown error propagates), verification (returning `false`
without touching any state when it fails), then the
`processedRequests.set` and `requestsProcessed++` BEFORE the submission is
attempted, and `requestsFulfilled++` only on submission success. -/
def processPipeline (m : IdempotencyMap) (stats : Stats) (addr : String)
    (now : Int) (gen : GenOutcome) (verifyOk : Bool) (submit : SubmitOutcome)
    (r : ParsedRequest) : ProcessOut :=
  match gen with
  | .fail => ⟨.threw, m, stats, 0⟩
  | .ok proof output =>
    if !verifyOk then ⟨.returnedFalse, m, stats, 0⟩
    else
      let m' := mapSet m addr
        ⟨now, proof, output, r.seed, r.requestId, r.poolId, r.requestIndex⟩
      let stats' := { stats with requestsProcessed := stats.requestsProcessed + 1 }
      match submit with
      | .success =>
          ⟨.returnedTrue, m',
            { stats' with requestsFulfilled := stats'.requestsFulfilled + 1 }, 1⟩
      | .sentFail => ⟨.returnedFalse, m', stats', 1⟩
      | .notSentFail => ⟨.returnedFalse, m', stats', 0⟩

/-- `processRequestAccount` (lines 515-653), with the external-call outcomes
(`gen` for `cli.generateProof`, `verifyOk` for `cli.verifyProof`, `submit`
for `submitFulfillment`) passed as parameters.  Mirrors the source order:
duplicate check, length/discriminator checks, field parse, then the
pipeline tail `processPipeline`. -/
def processRequestAccount (m : IdempotencyMap) (stats : Stats) (addr : String)
    (data : List Nat) (now : Int) (gen : GenOutcome) (verifyOk : Bool)
    (submit : SubmitOutcome) : ProcessOut :=
  if mapHas m addr then ⟨.returnedFalse, m, stats, 0⟩
  else if data.length < 8 then ⟨.returnedFalse, m, stats, 0⟩
  else if sliceBytes data 0 8 ≠ pendingTag then ⟨.returnedFalse, m, stats, 0⟩
  else
    match parseRequestData data with
    | none => ⟨.threw, m, stats, 0⟩
    | some r => processPipeline m stats addr now gen verifyOk submit r

/-! ## The per-cycle account loop (`monitorAndProcess`, lines 345-386) -/

/-- One scanned account together with the outcomes of the external calls its
processing would make. -/
structure AccountInput where
  addr : String
  data : List Nat
  now : Int
  gen : GenOutcome
  verifyOk : Bool
  submit : SubmitOutcome
deriving Repr

/-- The body of the `for` loop in `monitorAndProcess` (lines 361-372): a
thrown error from `processRequestAccount` is caught, `stats.errors` is
incremented, and the loop continues; a `true` return counts the request as
processed. -/
def monitorStep (m : IdempotencyMap) (stats : Stats) (i : AccountInput) :
    IdempotencyMap × Stats × Nat :=
  let out := processRequestAccount m stats i.addr i.data i.now i.gen i.verifyOk i.submit
  match out.result with
  | .threw => (out.map, { out.stats with errors := out.stats.errors + 1 }, 0)
  | .returnedTrue => (out.map, out.stats, 1)
  | .returnedFalse => (out.map, out.stats, 0)

/-- The whole per-cycle loop over the scanned accounts, returning the final
map, stats and the `processedCount`. -/
def monitorLoop : IdempotencyMap → Stats → List AccountInput →
    IdempotencyMap × Stats × Nat
  | m, stats, [] => (m, stats, 0)
  | m, stats, i :: rest =>
      let step := monitorStep m stats i
      let tail := monitorLoop step.1 step.2.1 rest
      (tail.1, tail.2.1, step.2.2 + tail.2.2)

/-! ## The scanner (`getPendingRequestAccounts`, lines 388-436) -/

/-- `getPendingRequestAccounts`: for each account, skip it when its data is
shorter than 32 bytes or its discriminator mismatches, otherwise keep it
exactly when `isRequestPending` says so (threading the idempotency map,
which `isRequestPending` may evict from).  Per-account errors are caught
and skip the account (lines 429-431), so the fold is total. -/
def scanAccounts (m : IdempotencyMap) (now : Int) :
    List (String × List Nat) → IdempotencyMap × List (String × List Nat)
  | [] => (m, [])
  | (addr, data) :: rest =>
      if data.length < 32 then scanAccounts m now rest
      else if sliceBytes data 0 8 ≠ pendingTag then scanAccounts m now rest
      else
        let p := isRequestPending m addr now data
        let tail := scanAccounts p.2 now rest
        if p.1 then (tail.1, (addr, data) :: tail.2) else tail

/-! ## The fulfillment instruction (`createFulfillmentInstruction`, lines 711-798) -/

/-- Seed material passed to `PublicKey.findProgramAddress`: a literal string
buffer, the 32-byte buffer of a pubkey (identified here by its base-58
string), or raw bytes. -/
inductive SeedPart where
  | str (s : String)
  | pkBytes (s : String)
  | bytes (bs : List Nat)
deriving DecidableEq, Repr

/-- Pubkeys appearing in the instruction: the oracle signer, a key parsed
from a base-58 string, a program-derived address, or the system program. -/
inductive Pk where
  | oracle
  | fromStr (s : String)
  | pda (seeds : List SeedPart) (programId : String)
  | system
deriving DecidableEq, Repr

/-- `PublicKey.findProgramAddress(seeds, programId)`: deterministic address
derivation, modelled as a free constructor (its hash internals are opaque
to the server). -/
def findProgramAddress (seeds : List SeedPart) (programId : String) : Pk :=
  .pda seeds programId

/-- One entry of the instruction's `keys` array. -/
structure AccountMeta where
  pubkey : Pk
  isSigner : Bool
  isWritable : Bool
deriving DecidableEq, Repr

/-- The transaction instruction object built at lines 783-794. -/
structure Instruction where
  keys : List AccountMeta
  programId : String
  data : List Nat
deriving DecidableEq, Repr

/-- The instruction data buffer built at lines 750-780: `Buffer.alloc` of
the exact total size, then sequential writes of the discriminator, the
length-prefixed proof, the length-prefixed public key, the 32-byte request
id, the pool id byte and the little-endian request index. -/
def createFulfillmentData (proof publicKey requestId : List Nat)
    (poolId requestIndex : Nat) : List Nat :=
  let total := 8 + 4 + proof.length + 4 + publicKey.length + 32 + 1 + 4
  let b0 := List.replicate total 0
  let b1 := bufCopy b0 fulfillDiscriminator 0
  let b2 := bufCopy b1 (u32le proof.length) 8
  let b3 := bufCopy b2 proof 12
  let b4 := bufCopy b3 (u32le publicKey.length) (12 + proof.length)
  let b5 := bufCopy b4 publicKey (16 + proof.length)
  let b6 := bufCopy b5 requestId (16 + proof.length + publicKey.length)
  let b7 := bufCopy b6 [poolId % 256] (48 + proof.length + publicKey.length)
  bufCopy b7 (u32le requestIndex) (49 + proof.length + publicKey.length)

/-- `createFulfillmentInstruction` (lines 711-798): derives the request-pool
PDA from `("request_pool", subscription, [poolId])` and the VRF-result PDA
from `("vrf_result", requestAccount)`, then names the six accounts in the
source's fixed order with the source's signer/writable flags. -/
def createFulfillmentInstruction (requestAccountPubkey : String)
    (proof publicKey requestId : List Nat) (poolId requestIndex : Nat)
    (subscriptionPDAStr : String) : Instruction :=
  let requestAccount := Pk.fromStr requestAccountPubkey
  let subscriptionPDA := Pk.fromStr subscriptionPDAStr
  let requestPoolPDA := findProgramAddress
    [.str "request_pool", .pkBytes subscriptionPDAStr, .bytes [poolId]] VRF_PROGRAM_ID
  let vrfResultPDA := findProgramAddress
    [.str "vrf_result", .pkBytes requestAccountPubkey] VRF_PROGRAM_ID
  { keys :=
      [ ⟨.oracle, true, true⟩
      , ⟨requestAccount, false, true⟩
      , ⟨vrfResultPDA, false, true⟩
      , ⟨requestPoolPDA, false, true⟩
      , ⟨subscriptionPDA, false, true⟩
      , ⟨.system, false, false⟩ ]
    programId := VRF_PROGRAM_ID
    data := createFulfillmentData proof publicKey requestId poolId requestIndex }

/-! ## `verifyProof` (lines 219-237) and the polling loop (`start`, lines 320-343) -/

/-- Outcome of the `execAsync` invocation of the external verifier tool. -/
inductive ExecOutcome where
  | exitZero (stdout stderr : String)
  | nonZeroExit (code : Nat)
  | timeout
  | spawnFailure
deriving DecidableEq, Repr

/-- `MangekyouCLIInterface.verifyProof` (lines 219-237): the whole body is
wrapped in try/catch; exit code 0 returns `true` and every throw from the
exec call returns `false`.  The method is total and never propagates an
error. -/
def verifyProofResult (r : ExecOutcome) : Bool :=
  match r with
  | .exitZero _ _ => true
  | .nonZeroExit _ => false
  | .timeout => false
  | .spawnFailure => false

/-- What one cycle of the `while (this.isRunning)` loop observed. -/
inductive CycleOutcome where
  | ok
  | threw
deriving DecidableEq, Repr

/-- One iteration of the main loop in `start` (lines 333-342): `none` when
the loop exits (running flag cleared), otherwise `some (errors, sleepMs)`:
a clean cycle sleeps `POLLING_INTERVAL`, a thrown cycle increments
`stats.errors` and sleeps the longer `ERROR_BACKOFF`. -/
def startLoopStep (isRunning : Bool) (errors : Nat) (outcome : CycleOutcome) :
    Option (Nat × Nat) :=
  if isRunning then
    match outcome with
    | .ok => some (errors, POLLING_INTERVAL)
    | .threw => some (errors + 1, ERROR_BACKOFF)
  else none

/-! ## Concrete sample data for witnesses -/

/-- A well-formed 166-byte pending-request record with empty callback data:
tag, subscription `1`-bytes, seed `2`-bytes, requester `3`-bytes,
callbackDataLen 0, requestSlot 0, status 0 (Pending), numWords 1,
callbackGasLimit 0, poolId 7, requestIndex 5, requestId `9`-bytes. -/
def sampleData : List Nat :=
  pendingTag ++ List.replicate 32 1 ++ List.replicate 32 2 ++ List.replicate 32 3
    ++ [0, 0, 0, 0]
    ++ List.replicate 8 0
    ++ [0]
    ++ [1, 0, 0, 0]
    ++ List.replicate 8 0
    ++ [7]
    ++ [5, 0, 0, 0]
    ++ List.replicate 32 9

/-- The parse of `sampleData`. -/
def sampleParsed : ParsedRequest :=
  { subscription := List.replicate 32 1
    seed := List.replicate 32 2
    requester := List.replicate 32 3
    poolId := 7
    requestIndex := 5
    requestId := List.replicate 32 9 }

example : parseRequestData sampleData = some sampleParsed := by decide
example : isRequestPendingParse sampleData = true := by decide

/-! ## Helper lemmas -/

theorem mapGet?_mapSet_self (m : IdempotencyMap) (k : String) (v : ProcRecord) :
    mapGet? (mapSet m k v) k = some v := by
  simp [mapGet?, mapSet, List.lookup]

/-! ## Claim theorems -/

/-- Claim C10: the proof-verification operation is total and never
propagates an error to its caller: any failure of the external verifier
invocation (non-zero exit, timeout, or spawn failure) is returned as the
Boolean `false`, so a verifier-tool failure is indistinguishable from an
invalid proof, while a zero exit returns `true`. -/
theorem verifyProof_total_failure_as_false :
    (∀ c, verifyProofResult (.nonZeroExit c) = false)
    ∧ verifyProofResult .timeout = false
    ∧ verifyProofResult .spawnFailure = false
    ∧ (∀ out err, verifyProofResult (.exitZero out err) = true) :=
  ⟨fun _ => rfl, rfl, rfl, fun _ _ => rfl⟩

/-- Claim C9: the polling scheduler survives errors: while the running flag
is set the main loop never terminates on a cycle outcome; a thrown cycle
increments the error counter and sleeps the `ERROR_BACKOFF` interval, which
is longer than the (default) polling interval; and an error thrown while
processing a single request is absorbed by the per-account loop, which
increments `errors` and continues with the remaining accounts. -/
theorem scheduler_survives_errors :
    (∀ e outcome, startLoopStep true e outcome ≠ none)
    ∧ (∀ e, startLoopStep true e .threw = some (e + 1, ERROR_BACKOFF))
    ∧ POLLING_INTERVAL < ERROR_BACKOFF
    ∧ (∀ (m : IdempotencyMap) (stats : Stats) (i : AccountInput)
        (rest : List AccountInput) (out : ProcessOut),
        out = processRequestAccount m stats i.addr i.data i.now i.gen i.verifyOk i.submit →
        out.result = .threw →
        monitorLoop m stats (i :: rest)
          = monitorLoop out.map { out.stats with errors := out.stats.errors + 1 } rest) := by
  refine ⟨fun e outcome => ?_, fun e => rfl, by decide, ?_⟩
  · cases outcome <;> simp [startLoopStep]
  · intro m stats i rest out hout hthrew
    subst hout
    simp [monitorLoop, monitorStep, hthrew]

/-- Witness for C9: a request account whose raw data is only the 8-byte tag
makes `processRequestAccount` throw (out-of-range read), and the cycle loop
absorbs it, ending with one error counted and no account processed. -/
theorem scheduler_survives_errors_witness :
    monitorLoop [] ⟨0, 0, 0⟩ [⟨"x", pendingTag, 0, .ok [] [], true, .success⟩]
      = ([], ⟨0, 0, 1⟩, 0) := by
  rw [scheduler_survives_errors.2.2.2 [] ⟨0, 0, 0⟩
    ⟨"x", pendingTag, 0, .ok [] [], true, .success⟩ [] _ rfl (by decide)]
  decide

/-- Claim C8: the fulfillment instruction names exactly six account
references in the source's fixed order: the oracle signer (mutable), the
request address (mutable), the result address derived from the request
address (mutable), the request-pool address derived from the subscription
reference and the pool id (mutable), the subscription address (mutable),
and the immutable system-program reference. -/
theorem fulfillment_instruction_six_accounts :
    ∀ (reqAddr subRef : String) (proof publicKey requestId : List Nat)
      (poolId requestIndex : Nat),
    ((createFulfillmentInstruction reqAddr proof publicKey requestId poolId requestIndex subRef).keys.length = 6)
    ∧ (createFulfillmentInstruction reqAddr proof publicKey requestId poolId requestIndex subRef).keys
        = [ ⟨.oracle, true, true⟩
          , ⟨.fromStr reqAddr, false, true⟩
          , ⟨findProgramAddress [.str "vrf_result", .pkBytes reqAddr] VRF_PROGRAM_ID, false, true⟩
          , ⟨findProgramAddress [.str "request_pool", .pkBytes subRef, .bytes [poolId]] VRF_PROGRAM_ID, false, true⟩
          , ⟨.fromStr subRef, false, true⟩
          , ⟨.system, false, false⟩ ] :=
  fun _ _ _ _ _ _ _ => ⟨rfl, rfl⟩

/-- Claim C4: the eligibility check returns `false` exactly when a record
for the address exists whose age `now - timestamp` is strictly below the
10-minute window; a record at least 10 minutes old is evicted from the map
as a side effect and the check returns `true`. -/
theorem isEligible_window_semantics :
    ∀ (m : IdempotencyMap) (addr : String) (now : Int),
    ((isEligible m addr now).1 = false ↔
      ∃ r, mapGet? m addr = some r ∧ now - r.timestamp < windowMs)
    ∧ (∀ r, mapGet? m addr = some r → windowMs ≤ now - r.timestamp →
        isEligible m addr now = (true, mapErase m addr)) := by
  intro m addr now
  constructor
  · unfold isEligible
    cases h : mapGet? m addr with
    | none => simp [h]
    | some r =>
        by_cases hw : now - r.timestamp < windowMs
        · simp [h, hw]
        · simp [h, hw]
  · intro r hr hw
    simp only [isEligible, hr]
    rw [if_neg (not_lt.mpr hw)]

/-- Witness for C4: a record written at time 0 is exactly 10 minutes old at
`now = 600000`, so the address is eligible again and the record is evicted. -/
theorem isEligible_window_semantics_witness :
    isEligible [("a", ⟨0, [], [], [], [], 0, 0⟩)] "a" 600000
      = (true, mapErase [("a", ⟨0, [], [], [], [], 0, 0⟩)] "a") :=
  (isEligible_window_semantics [("a", ⟨0, [], [], [], [], 0, 0⟩)] "a" 600000).2
    ⟨0, [], [], [], [], 0, 0⟩ (by decide) (by decide)

/-- Claim C5: for a record carrying the pending-request tag, the scanner
classifies it as pending exactly when the status byte — located at offset
`8+32+32+32 + 4 + callbackDataLen + 8`, with `callbackDataLen` read as a
u32 little-endian at offset 104 — equals 0; and the pipeline extracts
`poolId`, `requestIndex` and `requestId` at the offsets that follow the
status (1), numWords (4) and callbackGasLimit (8) fields. -/
theorem pending_layout_extraction :
    ∀ (data : List Nat) (cdl : Nat),
    sliceBytes data 0 8 = pendingTag →
    cdl = readUInt32LE data 104 →
    (116 + cdl < data.length →
      (isRequestPendingParse data = true ↔
        readUInt8 data (8 + 32 + 32 + 32 + 4 + cdl + 8) = 0))
    ∧ (134 + cdl ≤ data.length →
      parseRequestData data = some
        { subscription := sliceBytes data 8 32
          seed := sliceBytes data 40 32
          requester := sliceBytes data 72 32
          poolId := readUInt8 data (129 + cdl)
          requestIndex := readUInt32LE data (130 + cdl)
          requestId := sliceBytes data (134 + cdl) 32 }) := by
  intro data cdl htag hcdl
  subst hcdl
  constructor
  · intro hlen
    unfold isRequestPendingParse
    rw [if_neg (by simp [htag])]
    rw [if_neg (by omega)]
    rw [if_neg (by omega)]
    rw [show 8 + 32 + 32 + 32 + 4 + readUInt32LE data 104 + 8
          = 104 + 4 + readUInt32LE data 104 + 8 from by omega]
    simp [beq_iff_eq]
  · intro hlen
    unfold parseRequestData
    rw [if_neg (by omega)]
    rw [if_neg (by omega)]
    rw [if_neg (by omega)]
    rw [show 104 + 4 + readUInt32LE data 104 + 8 + 1 + 4 + 8
          = 129 + readUInt32LE data 104 from by omega]
    rw [show 129 + readUInt32LE data 104 + 1 = 130 + readUInt32LE data 104 from by omega]
    rw [show 129 + readUInt32LE data 104 + 5 = 134 + readUInt32LE data 104 from by omega]

/-- Witness for C5: on the concrete 166-byte `sampleData` record
(callback length 0) the status test holds and the parsed fields sit at
offsets 129, 130 and 134. -/
theorem pending_layout_extraction_witness :
    (isRequestPendingParse sampleData = true ↔
      readUInt8 sampleData (8 + 32 + 32 + 32 + 4 + 0 + 8) = 0)
    ∧ parseRequestData sampleData = some
        { subscription := sliceBytes sampleData 8 32
          seed := sliceBytes sampleData 40 32
          requester := sliceBytes sampleData 72 32
          poolId := readUInt8 sampleData (129 + 0)
          requestIndex := readUInt32LE sampleData (130 + 0)
          requestId := sliceBytes sampleData (134 + 0) 32 } :=
  ⟨(pending_layout_extraction sampleData 0 (by decide) (by decide)).1 (by decide),
   (pending_layout_extraction sampleData 0 (by decide) (by decide)).2 (by decide)⟩

theorem isRequestPendingParse_oob (data : List Nat)
    (h : data.length ≤ 116 + readUInt32LE data 104) :
    isRequestPendingParse data = false := by
  unfold isRequestPendingParse
  by_cases htag : sliceBytes data 0 8 = pendingTag
  · rw [if_neg (by simp [htag])]
    by_cases h108 : data.length ≤ 104 + 4
    · rw [if_pos h108]
    · rw [if_neg h108]
      simp only
      rw [if_pos (by omega)]
  · rw [if_pos (by simp [htag])]

/-- Claim C6: a raw account record that is too short (below 32 bytes, e.g.
20), carries a mismatching tag, or whose declared callback-data length
places the status byte past the buffer end, is never classified as
pending: the scanner silently drops it and continues with the remaining
accounts, leaving the idempotency map untouched (the scan itself is a
total function, so no process-level error can arise). -/
theorem malformed_record_skipped :
    ∀ (m : IdempotencyMap) (now : Int) (addr : String) (data : List Nat)
      (rest : List (String × List Nat)),
    (data.length < 32 ∨ sliceBytes data 0 8 ≠ pendingTag
      ∨ data.length ≤ 116 + readUInt32LE data 104) →
    mapGet? m addr = none →
    scanAccounts m now ((addr, data) :: rest) = scanAccounts m now rest := by
  intro m now addr data rest hbad hnone
  by_cases h32 : data.length < 32
  · simp [scanAccounts, h32]
  · by_cases htag : sliceBytes data 0 8 = pendingTag
    · have hoob : data.length ≤ 116 + readUInt32LE data 104 := by
        rcases hbad with h | h | h
        · omega
        · exact absurd htag h
        · exact h
      have hpend : isRequestPending m addr now data = (false, m) := by
        unfold isRequestPending isEligible
        rw [show mapGet? m addr = none from hnone]
        simp [isRequestPendingParse_oob data hoob]
      simp [scanAccounts, h32, htag, hpend]
    · simp [scanAccounts, h32, htag]

/-- Witness for C6: a 20-byte record is dropped and scanning of an empty
remainder proceeds normally. -/
theorem malformed_record_skipped_witness :
    scanAccounts [] 0 [("bad", List.replicate 20 0)] = ([], []) := by
  rw [malformed_record_skipped [] 0 "bad" (List.replicate 20 0) []
    (Or.inl (by decide)) (by decide)]
  rfl

theorem processRequestAccount_spine (m : IdempotencyMap) (stats : Stats) (addr : String)
    (data : List Nat) (now : Int) (gen : GenOutcome) (verifyOk : Bool)
    (submit : SubmitOutcome) (r : ParsedRequest)
    (hnone : mapGet? m addr = none) (hlen : 8 ≤ data.length)
    (htag : sliceBytes data 0 8 = pendingTag) (hparse : parseRequestData data = some r) :
    processRequestAccount m stats addr data now gen verifyOk submit
      = processPipeline m stats addr now gen verifyOk submit r := by
  have hhas : mapHas m addr = false := by simp [mapHas, hnone]
  unfold processRequestAccount
  simp only [hhas, Bool.false_eq_true, if_false]
  rw [if_neg (show ¬ data.length < 8 by omega)]
  rw [if_neg (show ¬ sliceBytes data 0 8 ≠ pendingTag by simp [htag])]
  rw [hparse]

/-- Claim C1: processing a fresh pending request once (proof generated,
verified and submitted successfully) sends exactly one fulfillment
transaction; any rescan within the 10-minute window finds the
ProcessingRecord and excludes the request, and the per-cycle duplicate
check in `processRequestAccount` refuses an address already in the map,
so no second submission can occur whatever the external outcomes are. -/
theorem idempotent_single_submission :
    ∀ (m : IdempotencyMap) (stats stats2 : Stats) (addr : String) (data : List Nat)
      (now now2 : Int) (r : ParsedRequest) (proof output : List Nat)
      (gen2 : GenOutcome) (verify2 : Bool) (submit2 : SubmitOutcome),
    mapGet? m addr = none →
    8 ≤ data.length →
    sliceBytes data 0 8 = pendingTag →
    parseRequestData data = some r →
    now2 - now < windowMs →
    ((processRequestAccount m stats addr data now (.ok proof output) true .success).submissions = 1)
    ∧ ((isRequestPending
        (processRequestAccount m stats addr data now (.ok proof output) true .success).map
        addr now2 data).1 = false)
    ∧ ((processRequestAccount
        (processRequestAccount m stats addr data now (.ok proof output) true .success).map
        stats2 addr data now2 gen2 verify2 submit2).submissions = 0
      ∧ (processRequestAccount
          (processRequestAccount m stats addr data now (.ok proof output) true .success).map
          stats2 addr data now2 gen2 verify2 submit2).result = .returnedFalse) := by
  intro m stats stats2 addr data now now2 r proof output gen2 verify2 submit2
  intro hnone hlen htag hparse hwin
  have hfirst : processRequestAccount m stats addr data now (.ok proof output) true .success
      = ⟨.returnedTrue,
         mapSet m addr ⟨now, proof, output, r.seed, r.requestId, r.poolId, r.requestIndex⟩,
         ⟨stats.requestsProcessed + 1, stats.requestsFulfilled + 1, stats.errors⟩, 1⟩ :=
    (processRequestAccount_spine m stats addr data now (.ok proof output) true .success r
      hnone hlen htag hparse).trans rfl
  have hget := mapGet?_mapSet_self m addr
    ⟨now, proof, output, r.seed, r.requestId, r.poolId, r.requestIndex⟩
  have hhas2 : mapHas
      (mapSet m addr ⟨now, proof, output, r.seed, r.requestId, r.poolId, r.requestIndex⟩)
      addr = true := by
    simp [mapHas, hget]
  refine ⟨by rw [hfirst], ?_, ?_, ?_⟩
  · rw [hfirst]
    unfold isRequestPending isEligible
    rw [hget]
    simp [hwin]
  · rw [hfirst]
    unfold processRequestAccount
    rw [hhas2]
    rfl
  · rw [hfirst]
    unfold processRequestAccount
    rw [hhas2]
    rfl

/-- Witness for C1: the concrete `sampleData` request, processed fresh at
time 0 and rescanned at time 60000 (one minute later). -/
theorem idempotent_single_submission_witness :
    ((processRequestAccount [] ⟨0, 0, 0⟩ "req" sampleData 0 (.ok [1] [2]) true .success).submissions = 1)
    ∧ ((isRequestPending
        (processRequestAccount [] ⟨0, 0, 0⟩ "req" sampleData 0 (.ok [1] [2]) true .success).map
        "req" 60000 sampleData).1 = false)
    ∧ ((processRequestAccount
        (processRequestAccount [] ⟨0, 0, 0⟩ "req" sampleData 0 (.ok [1] [2]) true .success).map
        ⟨0, 0, 0⟩ "req" sampleData 60000 (.ok [] []) true .success).submissions = 0
      ∧ (processRequestAccount
          (processRequestAccount [] ⟨0, 0, 0⟩ "req" sampleData 0 (.ok [1] [2]) true .success).map
          ⟨0, 0, 0⟩ "req" sampleData 60000 (.ok [] []) true .success).result = .returnedFalse) :=
  idempotent_single_submission [] ⟨0, 0, 0⟩ ⟨0, 0, 0⟩ "req" sampleData 0 60000
    sampleParsed [1] [2] (.ok [] []) true .success
    (by decide) (by decide) (by decide) (by decide) (by decide)

/-- Counterexample to claim C2 as stated: at a concrete input whose
submission fails (`notSentFail`), `processRequestAccount` has already
written the ProcessingRecord — the map contains the address afterwards —
the errors counter is not incremented, and the request is NOT eligible one
minute later, contradicting "a ProcessingRecord is written ... only when
the fulfillment submission succeeds", "the errors counter is incremented"
and "the request remains eligible for a future scan". -/
theorem record_written_despite_submission_failure :
    ((processRequestAccount [] ⟨0, 0, 0⟩ "req" sampleData 0 (.ok [1] [2]) true .notSentFail).result
      = .returnedFalse)
    ∧ ((mapGet? (processRequestAccount [] ⟨0, 0, 0⟩ "req" sampleData 0 (.ok [1] [2]) true .notSentFail).map
        "req").isSome = true)
    ∧ ((processRequestAccount [] ⟨0, 0, 0⟩ "req" sampleData 0 (.ok [1] [2]) true .notSentFail).stats.errors
      = 0)
    ∧ ((isEligible
        (processRequestAccount [] ⟨0, 0, 0⟩ "req" sampleData 0 (.ok [1] [2]) true .notSentFail).map
        "req" 60000).1 = false) := by
  decide

/-- Claim C2 as amended: once proof verification succeeds the
ProcessingRecord is written and `requestsProcessed` incremented BEFORE the
submission is attempted; the record remains (and the request stays
ineligible for the rest of the window) even when the submission fails, and
a submission failure returns `false` without touching the errors counter.
Failures before that point (a proof-generation error, modelled by
`GenOutcome.fail`) leave the map unchanged, so only then does the request
stay eligible; those throw and are counted by the cycle loop. -/
theorem processing_record_written_before_submission :
    ∀ (m : IdempotencyMap) (stats : Stats) (addr : String) (data : List Nat)
      (now : Int) (r : ParsedRequest) (proof output : List Nat)
      (submit : SubmitOutcome) (out : ProcessOut),
    mapGet? m addr = none →
    8 ≤ data.length →
    sliceBytes data 0 8 = pendingTag →
    parseRequestData data = some r →
    out = processRequestAccount m stats addr data now (.ok proof output) true submit →
    (mapGet? out.map addr
      = some ⟨now, proof, output, r.seed, r.requestId, r.poolId, r.requestIndex⟩)
    ∧ out.stats.requestsProcessed = stats.requestsProcessed + 1
    ∧ (submit = .success →
        out.stats.requestsFulfilled = stats.requestsFulfilled + 1 ∧ out.result = .returnedTrue)
    ∧ (submit ≠ .success →
        out.stats.requestsFulfilled = stats.requestsFulfilled
        ∧ out.stats.errors = stats.errors
        ∧ out.result = .returnedFalse)
    ∧ (∀ now2 : Int, now2 - now < windowMs → (isEligible out.map addr now2).1 = false)
    ∧ (processRequestAccount m stats addr data now .fail true submit).map = m
    ∧ (processRequestAccount m stats addr data now .fail true submit).result = .threw := by
  intro m stats addr data now r proof output submit out
  intro hnone hlen htag hparse hout
  have hspine := processRequestAccount_spine m stats addr data now (.ok proof output) true submit r
    hnone hlen htag hparse
  have hfail := processRequestAccount_spine m stats addr data now .fail true submit r
    hnone hlen htag hparse
  have hget := mapGet?_mapSet_self m addr
    ⟨now, proof, output, r.seed, r.requestId, r.poolId, r.requestIndex⟩
  have hmap : (processPipeline m stats addr now (.ok proof output) true submit r).map
      = mapSet m addr ⟨now, proof, output, r.seed, r.requestId, r.poolId, r.requestIndex⟩ := by
    cases submit <;> rfl
  subst hout
  rw [hspine]
  refine ⟨?_, ?_, ?_, ?_, ?_, ?_, ?_⟩
  · rw [hmap]; exact hget
  · cases submit <;> rfl
  · intro hs; subst hs; exact ⟨rfl, rfl⟩
  · intro hs
    cases submit with
    | success => exact absurd rfl hs
    | sentFail => exact ⟨rfl, rfl, rfl⟩
    | notSentFail => exact ⟨rfl, rfl, rfl⟩
  · intro now2 hwin
    rw [hmap]
    unfold isEligible
    rw [hget]
    simp [hwin]
  · rw [hfail]
    rfl
  · rw [hfail]
    rfl

/-- Witness for the amended C2: the concrete `sampleData` request with a
failing submission retains its ProcessingRecord and is ineligible one
minute later, while a proof-generation failure leaves the map empty. -/
theorem processing_record_written_before_submission_witness :
    (mapGet? (processRequestAccount [] ⟨0, 0, 0⟩ "req" sampleData 0 (.ok [1] [2]) true .notSentFail).map "req"
      = some ⟨0, [1], [2], sampleParsed.seed, sampleParsed.requestId, sampleParsed.poolId,
              sampleParsed.requestIndex⟩)
    ∧ ((isEligible
        (processRequestAccount [] ⟨0, 0, 0⟩ "req" sampleData 0 (.ok [1] [2]) true .notSentFail).map
        "req" 60000).1 = false)
    ∧ (processRequestAccount [] ⟨0, 0, 0⟩ "req" sampleData 0 .fail true .notSentFail).map = [] := by
  have h := processing_record_written_before_submission [] ⟨0, 0, 0⟩ "req" sampleData 0
    sampleParsed [1] [2] .notSentFail
    (processRequestAccount [] ⟨0, 0, 0⟩ "req" sampleData 0 (.ok [1] [2]) true .notSentFail)
    (by decide) (by decide) (by decide) (by decide) rfl
  exact ⟨h.1, h.2.2.2.2.1 60000 (by decide), h.2.2.2.2.2.1⟩

/-- Counterexample to claim C3 as stated: at a concrete input where proof
verification returns false, the errors counter is NOT incremented — the
call just returns `false`, and the cycle loop counts nothing — while the
claim asserts the counter increments by 1. -/
theorem verify_false_no_error_increment :
    ((processRequestAccount [] ⟨0, 0, 0⟩ "req" sampleData 0 (.ok [1] [2]) false .success).submissions = 0)
    ∧ ((processRequestAccount [] ⟨0, 0, 0⟩ "req" sampleData 0 (.ok [1] [2]) false .success).map = [])
    ∧ ((monitorStep [] ⟨0, 0, 0⟩ ⟨"req", sampleData, 0, .ok [1] [2], false, .success⟩).2.1.errors = 0) := by
  decide

/-- Claim C3 as amended: when verification returns false for a scanned
pending request, no submission call is made and the address is not added
to the idempotency ledger, but the errors counter is NOT incremented:
`processRequestAccount` returns `false` leaving map and stats untouched. -/
theorem verify_false_aborts_silently :
    ∀ (m : IdempotencyMap) (stats : Stats) (addr : String) (data : List Nat)
      (now : Int) (r : ParsedRequest) (proof output : List Nat) (submit : SubmitOutcome),
    mapGet? m addr = none →
    8 ≤ data.length →
    sliceBytes data 0 8 = pendingTag →
    parseRequestData data = some r →
    processRequestAccount m stats addr data now (.ok proof output) false submit
      = ⟨.returnedFalse, m, stats, 0⟩ := by
  intro m stats addr data now r proof output submit hnone hlen htag hparse
  exact (processRequestAccount_spine m stats addr data now (.ok proof output) false submit r
    hnone hlen htag hparse).trans rfl

/-- Witness for the amended C3: the concrete `sampleData` request with a
failing verification leaves every piece of state unchanged. -/
theorem verify_false_aborts_silently_witness :
    processRequestAccount [] ⟨0, 0, 0⟩ "req" sampleData 0 (.ok [1] [2]) false .success
      = ⟨.returnedFalse, [], ⟨0, 0, 0⟩, 0⟩ :=
  verify_false_aborts_silently [] ⟨0, 0, 0⟩ "req" sampleData 0 sampleParsed [1] [2] .success
    (by decide) (by decide) (by decide) (by decide)

theorem bufCopy_exact (pre mid rest src : List Nat) (h : mid.length = src.length) :
    bufCopy (pre ++ (mid ++ rest)) src pre.length = pre ++ (src ++ rest) := by
  unfold bufCopy
  rw [List.take_left]
  rw [List.take_of_length_le (show src.length ≤ (pre ++ (mid ++ rest)).length - pre.length by
    simp [List.length_append]; omega)]
  rw [show pre.length + src.length = (pre ++ mid).length by simp [List.length_append]; omega]
  rw [← List.append_assoc pre mid rest]
  rw [List.drop_left]
  rw [List.append_assoc]

theorem bufCopy_zeros_split (pre src : List Nat) (k off : Nat) (hoff : off = pre.length) :
    bufCopy (pre ++ List.replicate (src.length + k) 0) src off
      = pre ++ (src ++ List.replicate k 0) := by
  subst hoff
  rw [List.replicate_add]
  exact bufCopy_exact pre (List.replicate src.length 0) (List.replicate k 0) src (by simp)

theorem bufCopy_zeros_start (src : List Nat) (k : Nat) :
    bufCopy (List.replicate (src.length + k) 0) src 0 = src ++ List.replicate k 0 := by
  simpa using bufCopy_zeros_split [] src k 0 rfl

/-- Claim C7: the encoded fulfillment payload is a buffer of exact size
`8 + 4+len(proof) + 4+len(publicKey) + 32 + 1 + 4` containing, in order and
with no padding: the 8-byte discriminator, the u32-LE proof length then the
proof bytes, the u32-LE public-key length then the public-key bytes, the
32-byte request id, the pool-id byte and the u32-LE request index. -/
theorem fulfillment_payload_encoding :
    ∀ (proof publicKey requestId : List Nat) (poolId requestIndex : Nat),
    requestId.length = 32 →
    poolId < 256 →
    (createFulfillmentData proof publicKey requestId poolId requestIndex
      = fulfillDiscriminator ++ u32le proof.length ++ proof ++ u32le publicKey.length
          ++ publicKey ++ requestId ++ [poolId] ++ u32le requestIndex)
    ∧ (createFulfillmentData proof publicKey requestId poolId requestIndex).length
        = 8 + (4 + proof.length) + (4 + publicKey.length) + 32 + 1 + 4 := by
  intro proof publicKey requestId poolId requestIndex hid hpool
  have hmain : createFulfillmentData proof publicKey requestId poolId requestIndex
      = fulfillDiscriminator ++ u32le proof.length ++ proof ++ u32le publicKey.length
          ++ publicKey ++ requestId ++ [poolId] ++ u32le requestIndex := by
    simp only [createFulfillmentData]
    rw [show 8 + 4 + proof.length + 4 + publicKey.length + 32 + 1 + 4
          = fulfillDiscriminator.length + (45 + proof.length + publicKey.length) by
        simp [fulfillDiscriminator]; omega]
    rw [bufCopy_zeros_start fulfillDiscriminator (45 + proof.length + publicKey.length)]
    rw [show 45 + proof.length + publicKey.length
          = (u32le proof.length).length + (41 + proof.length + publicKey.length) by
        simp [u32le]; omega]
    rw [bufCopy_zeros_split fulfillDiscriminator (u32le proof.length)
      (41 + proof.length + publicKey.length) 8 (by simp [fulfillDiscriminator])]
    rw [← List.append_assoc fulfillDiscriminator (u32le proof.length)
      (List.replicate (41 + proof.length + publicKey.length) 0)]
    rw [show 41 + proof.length + publicKey.length
          = proof.length + (41 + publicKey.length) by omega]
    rw [bufCopy_zeros_split (fulfillDiscriminator ++ u32le proof.length) proof
      (41 + publicKey.length) 12 (by simp [fulfillDiscriminator, u32le])]
    rw [← List.append_assoc (fulfillDiscriminator ++ u32le proof.length) proof
      (List.replicate (41 + publicKey.length) 0)]
    rw [show 41 + publicKey.length
          = (u32le publicKey.length).length + (37 + publicKey.length) by simp [u32le]; omega]
    rw [bufCopy_zeros_split (fulfillDiscriminator ++ u32le proof.length ++ proof)
      (u32le publicKey.length) (37 + publicKey.length) (12 + proof.length)
      (by simp [fulfillDiscriminator, u32le]; omega)]
    rw [← List.append_assoc (fulfillDiscriminator ++ u32le proof.length ++ proof)
      (u32le publicKey.length) (List.replicate (37 + publicKey.length) 0)]
    rw [show 37 + publicKey.length = publicKey.length + 37 by omega]
    rw [bufCopy_zeros_split
      (fulfillDiscriminator ++ u32le proof.length ++ proof ++ u32le publicKey.length)
      publicKey 37 (16 + proof.length) (by simp [fulfillDiscriminator, u32le]; omega)]
    rw [← List.append_assoc
      (fulfillDiscriminator ++ u32le proof.length ++ proof ++ u32le publicKey.length)
      publicKey (List.replicate 37 0)]
    rw [show (37 : Nat) = requestId.length + 5 by omega]
    rw [bufCopy_zeros_split
      (fulfillDiscriminator ++ u32le proof.length ++ proof ++ u32le publicKey.length ++ publicKey)
      requestId 5 (16 + proof.length + publicKey.length)
      (by simp [fulfillDiscriminator, u32le]; omega)]
    rw [← List.append_assoc
      (fulfillDiscriminator ++ u32le proof.length ++ proof ++ u32le publicKey.length ++ publicKey)
      requestId (List.replicate 5 0)]
    rw [show (5 : Nat) = ([poolId % 256]).length + 4 by simp]
    rw [bufCopy_zeros_split
      (fulfillDiscriminator ++ u32le proof.length ++ proof ++ u32le publicKey.length
        ++ publicKey ++ requestId)
      [poolId % 256] 4 (48 + proof.length + publicKey.length)
      (by simp [fulfillDiscriminator, u32le, hid]; omega)]
    rw [← List.append_assoc
      (fulfillDiscriminator ++ u32le proof.length ++ proof ++ u32le publicKey.length
        ++ publicKey ++ requestId)
      [poolId % 256] (List.replicate 4 0)]
    rw [show (4 : Nat) = (u32le requestIndex).length + 0 by simp [u32le]]
    rw [bufCopy_zeros_split
      (fulfillDiscriminator ++ u32le proof.length ++ proof ++ u32le publicKey.length
        ++ publicKey ++ requestId ++ [poolId % 256])
      (u32le requestIndex) 0 (49 + proof.length + publicKey.length)
      (by simp [fulfillDiscriminator, u32le, hid]; omega)]
    rw [Nat.mod_eq_of_lt hpool]
    simp [List.append_assoc]
  refine ⟨hmain, ?_⟩
  rw [hmain]
  simp [List.length_append, fulfillDiscriminator, u32le, hid]
  omega

/-- Witness for C7: concrete 2-byte proof, 3-byte public key, 32-byte
request id, pool 7, index 5. -/
theorem fulfillment_payload_encoding_witness :
    (createFulfillmentData [10, 11] [20, 21, 22] (List.replicate 32 9) 7 5
      = fulfillDiscriminator ++ u32le 2 ++ [10, 11] ++ u32le 3 ++ [20, 21, 22]
          ++ List.replicate 32 9 ++ [7] ++ u32le 5)
    ∧ (createFulfillmentData [10, 11] [20, 21, 22] (List.replicate 32 9) 7 5).length
        = 8 + (4 + 2) + (4 + 3) + 32 + 1 + 4 :=
  fulfillment_payload_encoding [10, 11] [20, 21, 22] (List.replicate 32 9) 7 5
    (by decide) (by decide)
